import Mathlib

/-!
Verification development for the subscription_system repository.

Shallow embedding of the core data model and operations:
Money value object (src/interfaces), subscription lifecycle manager
(src/subscription/lifecycle), billing engine (src/subscription/billing),
YooMoney payment gateway headers (src/payment/gateways) and the task
scheduler (src/scheduler/task_scheduler.py).

Conventions of the embedding:
* Python `datetime` values are modelled as integer timestamps in seconds
  (`Time := Int`); `timedelta(days = n)` is `n * 86400` seconds, and the
  `.days` attribute of a difference of datetimes is floor division of the
  second count by 86400 (Python timedelta normalisation floors), i.e.
  `Int.fdiv`.
* Python `Decimal` amounts are modelled as rationals.
* Raising an exception is modelled as returning `Except.error`.
* The payment processor (`payment.processors`, absent from src/) is
  abstracted as a function argument `ℚ → Except PayError Tx`; a gateway
  charge outcome inside the billing engine is abstracted as the
  `ChargeOutcome` sum.
-/

abbrev Time := Int

def secondsPerDay : Int := 86400

def secondsPerHour : Int := 3600

/-- `t + timedelta(days = n)`. -/
def addDays (n : Int) (t : Time) : Time := t + n * secondsPerDay

/-- `(b - a).days` for two datetimes, Python floor semantics. -/
def daysBetween (a b : Time) : Int := (b - a).fdiv secondsPerDay

def isOkE {ε α : Type} : Except ε α → Bool
  | .ok _ => true
  | .error _ => false

/-! ### Money value object (src/interfaces/__init__.py, `Money`) -/

structure Money where
  amount : ℚ
  currency : String
deriving DecidableEq

/-- The `Money` constructor: `__post_init__` raises when `amount < 0`. -/
def mkMoney (amount : ℚ) (currency : String) : Except String Money :=
  if amount < 0 then .error "Amount cannot be negative"
  else .ok ⟨amount, currency⟩

/-- `Money.__add__`: currency guard, then the constructor runs again. -/
def Money.add (a b : Money) : Except String Money :=
  if a.currency ≠ b.currency then
    .error "Cannot add money in different currencies"
  else mkMoney (a.amount + b.amount) a.currency

/-- `Money.__sub__`: currency guard, then the constructor runs again
(so a negative difference raises). -/
def Money.sub (a b : Money) : Except String Money :=
  if a.currency ≠ b.currency then
    .error "Cannot subtract money in different currencies"
  else mkMoney (a.amount - b.amount) a.currency

/-- `Money.__lt__`. -/
def Money.ltM (a b : Money) : Except String Bool :=
  if a.currency ≠ b.currency then
    .error "Cannot compare money in different currencies"
  else .ok (a.amount < b.amount)

/-- `Money.__gt__`. -/
def Money.gtM (a b : Money) : Except String Bool :=
  if a.currency ≠ b.currency then
    .error "Cannot compare money in different currencies"
  else .ok (a.amount > b.amount)

/-! ### Domain records -/

/-- `SubscriptionPlan` fields used by the core (src/core/models). -/
structure Plan where
  name : String
  price : ℚ
  billingCycleDays : Int
  trialPeriodDays : Int
  maxRetries : Nat
deriving DecidableEq

/-- `Subscription` fields used by the lifecycle manager and billing engine. -/
structure Subscription where
  userId : Nat
  planId : Nat
  status : String
  currentPeriodStart : Time
  currentPeriodEnd : Time
  paymentMethodId : String
  retryCount : Nat
  cancelAtPeriodEndFlag : Bool
deriving DecidableEq

/-- A completed payment-processor transaction (id and amount are the only
fields the lifecycle code reads). -/
structure Tx where
  id : Nat
  amount : ℚ
deriving DecidableEq

/-- Failure modes of the payment processor, as classified by the billing
engine handlers (`InsufficientFundsError`, `PaymentProcessingError`). -/
inductive PayError where
  | insufficientFunds
  | gatewayError (msg : String)
deriving DecidableEq

/-- Errors escaping a lifecycle operation: `SubscriptionError` with its
message, or a propagated payment-processor exception. -/
inductive CreateErr where
  | subscriptionErr (msg : String)
  | payErr (e : PayError)
deriving DecidableEq

/-! ### Lifecycle manager (src/subscription/lifecycle/__init__.py) -/

def blockedMsg : String := "User already has an active subscription"

/-- Modelled from the spec: `_get_active_subscription` is called in
`create_subscription` but its body is absent from src/. The spec (4.5)
rejects creation when an active/trial/past_due subscription exists; the
src call site passes only `user_id`, so the lookup cannot depend on the
plan. -/
def nonTerminalStatuses : List String := ["active", "trial", "past_due"]

def getActiveSubscription (subs : List Subscription) (userId : Nat) :
    Option Subscription :=
  subs.find? (fun s => s.userId == userId && nonTerminalStatuses.contains s.status)

/-- `_apply_promo_code`: a stub in src, always returns `Decimal(0)`. -/
def applyPromoCode (_promoCode : Option String) : ℚ := 0

/-- `_setup_trial_period`: returns the trial start and end
(`trial_end = period_start + trial_days`). -/
def setupTrialPeriod (trialDays : Int) (periodStart _periodEnd : Time) :
    Time × Time :=
  (periodStart, addDays trialDays periodStart)

/-- The dictionary returned by `create_subscription`. -/
structure CreateResult where
  subStatus : String
  trialEndsAt : Option Time
  txId : Option Nat
  nextBillingDate : Time
deriving DecidableEq

/-- `create_subscription`. The plan lookup (`plan_calculator.get_plan`,
absent from src/) is abstracted by passing the plan; the payment
processor is abstracted by `processPayment`. `_create_subscription_record`
is absent from src/, but its `status` argument
(`'active' if trial_period else 'pending'`) is fixed at the src call
site; the record construction itself is modelled from the spec. -/
def createSubscription (subs : List Subscription) (userId planId : Nat)
    (paymentMethodId : String) (promoCode : Option String) (plan : Plan)
    (processPayment : ℚ → Except PayError Tx) (now : Time) :
    Except CreateErr (Subscription × CreateResult) :=
  match getActiveSubscription subs userId with
  | some _ => .error (.subscriptionErr blockedMsg)
  | none =>
    let discount := applyPromoCode promoCode
    let periodStart := now
    let periodEnd := addDays plan.billingCycleDays periodStart
    if 0 < plan.trialPeriodDays then
      let trialEnd := (setupTrialPeriod plan.trialPeriodDays periodStart periodEnd).2
      let sub : Subscription :=
        { userId := userId, planId := planId, status := "active",
          currentPeriodStart := periodStart, currentPeriodEnd := periodEnd,
          paymentMethodId := paymentMethodId, retryCount := 0,
          cancelAtPeriodEndFlag := false }
      .ok (sub, { subStatus := "active", trialEndsAt := some trialEnd,
                  txId := none, nextBillingDate := periodEnd })
    else
      match processPayment (plan.price - discount) with
      | .error e => .error (.payErr e)
      | .ok tx =>
        let sub : Subscription :=
          { userId := userId, planId := planId, status := "pending",
            currentPeriodStart := periodStart, currentPeriodEnd := periodEnd,
            paymentMethodId := paymentMethodId, retryCount := 0,
            cancelAtPeriodEndFlag := false }
        .ok (sub, { subStatus := "pending", trialEndsAt := none,
                    txId := some tx.id, nextBillingDate := periodEnd })

structure CancelOutcome where
  sub : Subscription
  refunded : Bool
deriving DecidableEq

/-- Modelled from the spec: `_cancel_immediately` is absent from src/.
Spec 4.5 `cancel(immediate = true)`: compute the prorated refund and
invoke the gateway refund; on success set the state to `cancelled` and
record the refund; on refund failure the state remains and the
operation fails with no partial state change. The gateway refund call
is abstracted by its outcome `refundOk`. -/
def cancelImmediately (sub : Subscription) (refundOk : Bool) (_now : Time) :
    Except String CancelOutcome :=
  if refundOk then
    .ok { sub := { sub with status := "cancelled" }, refunded := true }
  else .error "Refund failed"

/-- Modelled from the spec: `_cancel_at_period_end` is absent from src/.
Spec 4.5 `cancel(immediate = false)`: set `cancel_at_period_end`, state
remains. -/
def cancelAtPeriodEndOp (sub : Subscription) : CancelOutcome :=
  ({ sub := { sub with cancelAtPeriodEndFlag := true }, refunded := false })

/-- `cancel_subscription`: the only guard in src is
`subscription.status == 'cancelled'`; it then dispatches to
`_cancel_immediately` (which may fail on the refund) or
`_cancel_at_period_end`. -/
def cancelSubscription (sub : Subscription) (immediate refundOk : Bool)
    (now : Time) : Except String CancelOutcome :=
  if sub.status = "cancelled" then .error "Subscription already cancelled"
  else if immediate then cancelImmediately sub refundOk now
  else .ok (cancelAtPeriodEndOp sub)

/-- `_validate_upgrade`: only the price comparison is checked. -/
def validateUpgrade (currentPlan newPlan : Plan) : Except String Unit :=
  if newPlan.price ≤ currentPlan.price then
    .error "New plan must be more expensive for upgrade"
  else .ok ()

/-- `_calculate_prorated_amount`. `days_used` is not clamped in src.
Division is rational division; src would raise `ZeroDivisionError` when
the period is empty, so theorems assume a positive period length. -/
def calculateProratedAmount (sub : Subscription)
    (currentPlan newPlan : Plan) (now : Time) : ℚ :=
  let daysUsed : Int := daysBetween sub.currentPeriodStart now
  let totalDays : Int := daysBetween sub.currentPeriodStart sub.currentPeriodEnd
  let daysRemaining : Int := totalDays - daysUsed
  let dailyRateCurrent : ℚ := currentPlan.price / (totalDays : ℚ)
  let dailyRateNew : ℚ := newPlan.price / (totalDays : ℚ)
  let amountPaid : ℚ := dailyRateCurrent * (daysUsed : ℚ)
  let amountDue : ℚ := dailyRateNew * (daysRemaining : ℚ)
  max (amountDue - amountPaid) 0

/-- The prorated amount as the spec words it (4.4 `prorate`), with
`used` clamped to `[0, total]`; written only to compare against
`calculateProratedAmount`. -/
def claimProrateClamped (sub : Subscription)
    (currentPlan newPlan : Plan) (now : Time) : ℚ :=
  let total : Int := daysBetween sub.currentPeriodStart sub.currentPeriodEnd
  let used : Int := max 0 (min (daysBetween sub.currentPeriodStart now) total)
  let remaining : Int := total - used
  max 0 (newPlan.price / (total : ℚ) * (remaining : ℚ) -
         currentPlan.price / (total : ℚ) * (used : ℚ))

structure UpgradeResult where
  newPlanId : Nat
  txId : Option Nat
  proratedAmount : ℚ
deriving DecidableEq

/-- `upgrade_subscription`. `_update_subscription_plan` is absent from
src/; modelled from the spec (4.5 upgrade: swap `plan_id`, period
unchanged). Note src performs no check of the subscription status. -/
def upgradeSubscription (sub : Subscription) (currentPlan newPlan : Plan)
    (newPlanId : Nat) (processPayment : ℚ → Except PayError Tx) (now : Time) :
    Except CreateErr (Subscription × UpgradeResult) :=
  match validateUpgrade currentPlan newPlan with
  | .error m => .error (.subscriptionErr m)
  | .ok _ =>
    let prorated := calculateProratedAmount sub currentPlan newPlan now
    if 0 < prorated then
      match processPayment prorated with
      | .error e => .error (.payErr e)
      | .ok tx =>
        .ok ({ sub with planId := newPlanId },
             { newPlanId := newPlanId, txId := some tx.id,
               proratedAmount := prorated })
    else
      .ok ({ sub with planId := newPlanId },
           { newPlanId := newPlanId, txId := none,
             proratedAmount := prorated })

/-! ### Billing engine (src/subscription/billing/__init__.py) -/

/-- The `retry_config` literal of `BillingEngine.__init__`. -/
structure RetryConfig where
  maxAttempts : Nat
  initialDelay : Int
  backoffFactor : Int
  maxDelay : Int
deriving DecidableEq

def retryConfig : RetryConfig :=
  { maxAttempts := 3, initialDelay := 1, backoffFactor := 2, maxDelay := 24 }

/-- The per-subscription result dictionary of the billing engine,
together with the side effects the handlers perform. -/
structure PaymentResult where
  success : Bool
  txId : Option Nat
  cancelled : Bool
  retryAt : Option Time
  adminAlerted : Bool
  errMsg : Option String
deriving DecidableEq

/-- Modelled from the spec: `_cancel_subscription_for_non_payment` is
absent from src/; spec 4.6(d) transitions the subscription to
`cancelled`. -/
def cancelForNonPayment (sub : Subscription) : Subscription :=
  { sub with status := "cancelled" }

/-- `_handle_insufficient_funds`: increment `retry_count`; cancel when the
incremented count reaches `plan.max_retries`; otherwise schedule a retry
at `now + timedelta(days = initial_delay * backoff_factor ^ (retry_count - 1))`.
No cap is applied to the delay in src. -/
def handleInsufficientFunds (sub : Subscription) (maxRetries : Nat)
    (now : Time) : Subscription × PaymentResult :=
  let sub := { sub with retryCount := sub.retryCount + 1 }
  if maxRetries ≤ sub.retryCount then
    (cancelForNonPayment sub,
     { success := false, txId := none, cancelled := true, retryAt := none,
       adminAlerted := false,
       errMsg := some "Subscription cancelled due to non-payment" })
  else
    let retryDate :=
      addDays (retryConfig.initialDelay *
               retryConfig.backoffFactor ^ (sub.retryCount - 1)) now
    (sub,
     { success := false, txId := none, cancelled := false,
       retryAt := some retryDate, adminAlerted := false,
       errMsg := some "Insufficient funds" })

/-- `_handle_payment_error`: log, alert the admin, return a failure
result. The subscription is untouched and no retry is scheduled. -/
def handlePaymentError (sub : Subscription) (errorMessage : String) :
    Subscription × PaymentResult :=
  (sub,
   { success := false, txId := none, cancelled := false, retryAt := none,
     adminAlerted := true,
     errMsg := some ("Payment gateway error: " ++ errorMessage) })

/-- Outcome of the payment-processor call inside the billing engine
(the processor itself is absent from src/). -/
inductive ChargeOutcome where
  | success (tx : Tx)
  | insufficientFunds
  | gatewayError (msg : String)
deriving DecidableEq

/-- `_process_subscription_payment`: lock guard, charge, then either
extend the period (`_extend_subscription` is absent from src/ and
modelled as updating `current_period_end`) or dispatch to the failure
handlers. Every branch returns a result value, so a gateway failure
never aborts the surrounding batch. -/
def processSubscriptionPayment (sub : Subscription) (plan : Plan)
    (lockAvailable : Bool) (charge : ChargeOutcome) (now : Time) :
    Subscription × PaymentResult :=
  if lockAvailable = false then
    (sub,
     { success := false, txId := none, cancelled := false, retryAt := none,
       adminAlerted := false, errMsg := some "Could not acquire lock" })
  else
    match charge with
    | .success tx =>
      let nextPeriodEnd := addDays plan.billingCycleDays sub.currentPeriodEnd
      ({ sub with currentPeriodEnd := nextPeriodEnd },
       { success := true, txId := some tx.id, cancelled := false,
         retryAt := none, adminAlerted := false, errMsg := none })
    | .insufficientFunds => handleInsufficientFunds sub plan.maxRetries now
    | .gatewayError m => handlePaymentError sub m

/-! ### YooMoney gateway headers (src/payment/gateways/__init__.py) -/

/-- `YooMoneyGateway._get_headers`: the `Idempotence-Key` header is
`str(datetime.now().timestamp())`, the wall-clock time at request
construction, modelled as the string `nowTimestamp`. No transaction
identity enters the computation. -/
def yooMoneyHeaders (apiKey : String) (nowTimestamp : String) :
    List (String × String) :=
  [("Authorization", "Basic " ++ apiKey),
   ("Idempotence-Key", nowTimestamp),
   ("Content-Type", "application/json")]

def idempotenceKey (headers : List (String × String)) : Option String :=
  (headers.find? (fun h => h.1 == "Idempotence-Key")).map Prod.snd

/-! ### Task scheduler (src/scheduler/task_scheduler.py) -/

/-- The fields of `ScheduledTask` that `_calculate_next_task_run`
reads for interval tasks. `intervalSeconds` records the
`schedule_params['interval']` the task was scheduled with. -/
structure SchedTask where
  scheduleType : String
  intervalSeconds : Int
  lastRun : Option Time
deriving DecidableEq

/-- The resolution picked by `schedule_recurring_task` from
`interval.total_seconds()`. -/
def scheduleTypeFor (intervalSeconds : Int) : String :=
  if intervalSeconds < 60 then "seconds"
  else if intervalSeconds < 3600 then "minutes"
  else if intervalSeconds < 86400 then "hours"
  else "days"

/-- `schedule_recurring_task`: stores the task with the quantized
`schedule_type` and sets the first `next_run = now + interval`. -/
def scheduleRecurringTask (intervalSeconds : Int) (now : Time) :
    SchedTask × Time :=
  ({ scheduleType := scheduleTypeFor intervalSeconds,
     intervalSeconds := intervalSeconds, lastRun := none },
   now + intervalSeconds)

/-- The `interval_map` literal of `_calculate_next_task_run`: one single
unit of the resolution, in seconds; `.get` default is one day. -/
def intervalMapSeconds (scheduleType : String) : Int :=
  if scheduleType = "seconds" then 1
  else if scheduleType = "minutes" then 60
  else if scheduleType = "hours" then 3600
  else 86400

/-- `_calculate_next_task_run` for interval tasks: `last_run` plus ONE
unit of the resolution (`interval_map` discards the stored interval).
The daily branch, which recomputes from the wall clock, is abstracted
by `dailyNext`. -/
def calculateNextTaskRun (dailyNext : Time) (task : SchedTask) :
    Option Time :=
  if task.scheduleType = "daily" then some dailyNext
  else if task.scheduleType = "seconds" ∨ task.scheduleType = "minutes" ∨
          task.scheduleType = "hours" ∨ task.scheduleType = "days" then
    match task.lastRun with
    | some lr => some (lr + intervalMapSeconds task.scheduleType)
    | none => none
  else none

/-! ### Concrete fixtures for counterexamples and witnesses -/

def noTrialPlan : Plan :=
  { name := "basic", price := 1000, billingCycleDays := 30,
    trialPeriodDays := 0, maxRetries := 3 }

def trialPlan : Plan :=
  { name := "basic-trial", price := 1000, billingCycleDays := 30,
    trialPeriodDays := 7, maxRetries := 3 }

def premiumPlan : Plan :=
  { name := "premium", price := 3000, billingCycleDays := 30,
    trialPeriodDays := 0, maxRetries := 3 }

def thirtyPlan : Plan :=
  { name := "p30", price := 30, billingCycleDays := 30,
    trialPeriodDays := 0, maxRetries := 3 }

def activeSub : Subscription :=
  { userId := 7, planId := 1, status := "active", currentPeriodStart := 0,
    currentPeriodEnd := 2592000, paymentMethodId := "pm-1", retryCount := 0,
    cancelAtPeriodEndFlag := false }

def cancelledStateSub : Subscription := { activeSub with status := "cancelled" }

def expiredSub : Subscription := { activeSub with status := "expired" }

def pastDueSub5 : Subscription :=
  { activeSub with status := "past_due", retryCount := 5 }

/-- A subscription whose period starts 10 days after time 0, so that at
`now = 0` the unclamped `days_used` is negative. -/
def lateStartSub : Subscription :=
  { activeSub with currentPeriodStart := 864000, currentPeriodEnd := 3456000 }

def okCharge : ℚ → Except PayError Tx := fun a => .ok ⟨9, a⟩

def failCharge : ℚ → Except PayError Tx := fun _ => .error .insufficientFunds

/-! ### Theorems -/

/-- Claim C10: every constructed `Money` value has a nonnegative amount
(construction with a negative amount fails); for values satisfying the
invariant and sharing a currency, subtraction succeeds exactly when the
left amount is at least the right amount, and addition and subtraction
preserve the invariant; addition, subtraction and the order comparisons
between different currencies always fail. -/
theorem C10_money_invariant (q : ℚ) (c : String) (a b : Money)
    (ha : 0 ≤ a.amount) (hb : 0 ≤ b.amount) :
    (isOkE (mkMoney q c) = true ↔ 0 ≤ q) ∧
    (∀ m : Money, mkMoney q c = .ok m → 0 ≤ m.amount) ∧
    (a.currency = b.currency →
      ((isOkE (a.sub b) = true ↔ b.amount ≤ a.amount) ∧
       isOkE (a.add b) = true ∧
       (∀ m, a.add b = .ok m → 0 ≤ m.amount) ∧
       (∀ m, a.sub b = .ok m → 0 ≤ m.amount))) ∧
    (a.currency ≠ b.currency →
      (isOkE (a.add b) = false ∧ isOkE (a.sub b) = false ∧
       isOkE (a.ltM b) = false ∧ isOkE (a.gtM b) = false)) := by
  refine ⟨?_, ?_, ?_, ?_⟩
  · unfold mkMoney
    split_ifs with h
    · simp [isOkE]; linarith
    · simp [isOkE]; linarith
  · intro m hm
    unfold mkMoney at hm
    split_ifs at hm with h
    cases hm
    show 0 ≤ q
    linarith
  · intro hc
    refine ⟨?_, ?_, ?_, ?_⟩
    · unfold Money.sub mkMoney
      split_ifs with h1 h2
      · exact absurd hc h1
      · simp [isOkE]; linarith
      · simp [isOkE]; linarith
    · unfold Money.add mkMoney
      split_ifs with h1 h2
      · exact absurd hc h1
      · linarith
      · simp [isOkE]
    · intro m hm
      unfold Money.add mkMoney at hm
      split_ifs at hm with h1 h2
      cases hm
      show 0 ≤ a.amount + b.amount
      linarith
    · intro m hm
      unfold Money.sub mkMoney at hm
      split_ifs at hm with h1 h2
      cases hm
      show 0 ≤ a.amount - b.amount
      linarith
  · intro hc
    unfold Money.add Money.sub Money.ltM Money.gtM
    split_ifs
    simp [isOkE]

/-- Claim C10 witness: concrete evaluation of `C10_money_invariant` at
amounts 5 and 3 in the same currency. -/
theorem C10_money_invariant_witness :
    isOkE (Money.sub ⟨5, "RUB"⟩ ⟨3, "RUB"⟩) = true :=
  (((C10_money_invariant 2 "RUB" ⟨5, "RUB"⟩ ⟨3, "RUB"⟩ (by norm_num)
      (by norm_num)).2.2.1 rfl).1).mpr (by norm_num)

/-- Claim C1 (refuted; code bug): the Idempotence-Key header built by
`YooMoneyGateway._get_headers` is the wall-clock timestamp string of the
moment the request is constructed, not a function of the pending
transaction. Two submissions of the same charge at distinct times carry
distinct keys, so the provider cannot dedupe the retry. -/
theorem C1_idempotence_key_is_wall_clock (apiKey t1 t2 : String)
    (h : t1 ≠ t2) :
    idempotenceKey (yooMoneyHeaders apiKey t1) = some t1 ∧
    idempotenceKey (yooMoneyHeaders apiKey t2) = some t2 ∧
    idempotenceKey (yooMoneyHeaders apiKey t1) ≠
      idempotenceKey (yooMoneyHeaders apiKey t2) := by
  refine ⟨rfl, rfl, ?_⟩
  simp only [idempotenceKey, yooMoneyHeaders]
  simpa using h

/-- Claim C1 witness: the same charge, resubmitted one wall-clock second
later, carries a different Idempotence-Key. -/
theorem C1_idempotence_key_is_wall_clock_witness :
    idempotenceKey (yooMoneyHeaders "shop-1" "1700000000.0") ≠
      idempotenceKey (yooMoneyHeaders "shop-1" "1700000001.0") :=
  (C1_idempotence_key_is_wall_clock "shop-1" "1700000000.0" "1700000001.0"
    (by decide)).2.2

/-- Claim C9 (refuted; code bug): a task scheduled with a 300-second
(5-minute) interval is quantized to `schedule_type = 'minutes'` and its
first run is at `now + 300 s` as claimed, but after a completed run
`_calculate_next_task_run` sets `next_run = last_run + 60 s`: the
`interval_map` lookup adds one single unit of the resolution and
discards the interval the task was scheduled with (while the underlying
schedule job keeps firing every 300 s). -/
theorem C9_interval_next_run_drops_interval :
    (scheduleRecurringTask 300 0).1.scheduleType = "minutes" ∧
    (scheduleRecurringTask 300 0).2 = 0 + 300 ∧
    calculateNextTaskRun 0
      { scheduleType := "minutes", intervalSeconds := 300,
        lastRun := some 1000 } = some (1000 + 60) ∧
    calculateNextTaskRun 0
      { scheduleType := "minutes", intervalSeconds := 300,
        lastRun := some 1000 } ≠ some (1000 + 300) := by
  refine ⟨rfl, rfl, rfl, ?_⟩
  simp [calculateNextTaskRun, intervalMapSeconds]

/-- Claim C7 is refuted on its retry conjunct: for a gateway error the
handler leaves the subscription untouched and schedules nothing at all;
in particular `retry_at` is not `now + 1 hour`. -/
theorem C7_gateway_error_counterexample :
    (processSubscriptionPayment activeSub noTrialPlan true
        (.gatewayError "timeout") 0).2.retryAt = none ∧
    (processSubscriptionPayment activeSub noTrialPlan true
        (.gatewayError "timeout") 0).2.retryAt ≠ some (0 + secondsPerHour) := by
  exact ⟨rfl, by decide⟩

/-- Claim C7 as amended: when a recurring charge fails with
`PaymentGatewayError`, the billing engine leaves the subscription
(including `retry_count`) unchanged, raises an admin alert, reports a
per-subscription failure result (so the batch continues), and schedules
NO retry: `_handle_payment_error` never calls `_schedule_retry`. -/
theorem C7_gateway_error_alerts_without_retry (sub : Subscription)
    (plan : Plan) (msg : String) (now : Time) :
    processSubscriptionPayment sub plan true (.gatewayError msg) now =
      (sub,
       { success := false, txId := none, cancelled := false,
         retryAt := none, adminAlerted := true,
         errMsg := some ("Payment gateway error: " ++ msg) }) := by
  rfl

/-- Claim C8 is refuted on the `expired` conjunct: `cancel_subscription`
only guards against status `'cancelled'`, so cancelling an `expired`
subscription is accepted rather than rejected (here with the gateway
refund succeeding). -/
theorem C8_expired_cancel_counterexample :
    expiredSub.status = "expired" ∧
    isOkE (cancelSubscription expiredSub false true 0) = true ∧
    isOkE (cancelSubscription expiredSub true true 0) = true := by
  exact ⟨rfl, rfl, rfl⟩

/-- Claim C8 as amended: `cancel_subscription` fails, with no state
change and no refund, whenever the subscription status is already
`'cancelled'` (an `expired` subscription is NOT rejected, per the
counterexample); a successful immediate cancel records the refund and
leaves the subscription in `'cancelled'`, so a second cancel of any
kind, whatever its refund outcome, fails rather than issuing a double
refund; and an immediate cancel whose gateway refund fails leaves the
operation failed (spec 4.5: state remains, no partial change). -/
theorem C8_cancel_guard (sub : Subscription) (immediate refundOk : Bool)
    (now now2 : Time) :
    (sub.status = "cancelled" →
      cancelSubscription sub immediate refundOk now =
        .error "Subscription already cancelled") ∧
    (∀ o, cancelSubscription sub true refundOk now = .ok o →
      o.sub.status = "cancelled" ∧ o.refunded = true ∧
      ∀ i2 r2, cancelSubscription o.sub i2 r2 now2 =
        .error "Subscription already cancelled") ∧
    (refundOk = false → sub.status ≠ "cancelled" →
      cancelSubscription sub true refundOk now = .error "Refund failed") := by
  refine ⟨?_, ?_, ?_⟩
  · intro h
    unfold cancelSubscription
    simp [h]
  · intro o ho
    unfold cancelSubscription cancelImmediately at ho
    split_ifs at ho with h1 h2 h3
    · cases ho
      refine ⟨rfl, rfl, ?_⟩
      intro i2 r2
      unfold cancelSubscription
      simp
    · exact absurd rfl h2
  · intro hr hs
    unfold cancelSubscription cancelImmediately
    simp [hr, hs]

/-- Claim C8 witness: a second cancel of an already-cancelled
subscription fails with the already-cancelled error, via
`C8_cancel_guard`. -/
theorem C8_cancel_guard_witness :
    cancelSubscription cancelledStateSub true true 0 =
      .error "Subscription already cancelled" :=
  (C8_cancel_guard cancelledStateSub true true 0 0).1 rfl

/-- Claim C2 is refuted on its status conjunct: a create with a 7-day
trial plan succeeds with no charge (the always-failing processor is
never consulted), trial end and billing dates as claimed, but the
recorded status is `'active'`, not `'trial'`. -/
theorem C2_trial_status_counterexample :
    createSubscription [] 1 1 "pm-1" none trialPlan failCharge 0 =
      .ok ({ userId := 1, planId := 1, status := "active",
             currentPeriodStart := 0, currentPeriodEnd := 2592000,
             paymentMethodId := "pm-1", retryCount := 0,
             cancelAtPeriodEndFlag := false },
           { subStatus := "active", trialEndsAt := some 604800,
             txId := none, nextBillingDate := 2592000 }) ∧
    "active" ≠ "trial" := by
  exact ⟨rfl, by decide⟩

/-- Claim C2 as amended: for every `create_subscription` call where the
plan has `trial_period_days > 0` and the user has no blocking
subscription, the subscription is created with status `'active'` (src
passes `'active' if trial_period else 'pending'`; there is no `'trial'`
status at creation), `trial_end = now + trial_period_days`,
`current_period_end = now + billing_cycle_days`, and no charge is
attempted: the result is the same for every payment processor and
carries `transaction_id = None`. -/
theorem C2_trial_create (subs : List Subscription) (userId planId : Nat)
    (pm : String) (promo : Option String) (plan : Plan)
    (processPayment : ℚ → Except PayError Tx) (now : Time)
    (hfree : getActiveSubscription subs userId = none)
    (htrial : 0 < plan.trialPeriodDays) :
    createSubscription subs userId planId pm promo plan processPayment now =
      .ok ({ userId := userId, planId := planId, status := "active",
             currentPeriodStart := now,
             currentPeriodEnd := addDays plan.billingCycleDays now,
             paymentMethodId := pm, retryCount := 0,
             cancelAtPeriodEndFlag := false },
           { subStatus := "active",
             trialEndsAt := some (addDays plan.trialPeriodDays now),
             txId := none,
             nextBillingDate := addDays plan.billingCycleDays now }) := by
  unfold createSubscription
  rw [hfree]
  simp [htrial, setupTrialPeriod]

/-- Claim C2 witness: concrete trial creation via `C2_trial_create`. -/
theorem C2_trial_create_witness :
    createSubscription [] 1 1 "pm-1" none trialPlan okCharge 0 =
      .ok ({ userId := 1, planId := 1, status := "active",
             currentPeriodStart := 0,
             currentPeriodEnd := addDays trialPlan.billingCycleDays 0,
             paymentMethodId := "pm-1", retryCount := 0,
             cancelAtPeriodEndFlag := false },
           { subStatus := "active",
             trialEndsAt := some (addDays trialPlan.trialPeriodDays 0),
             txId := none,
             nextBillingDate := addDays trialPlan.billingCycleDays 0 }) :=
  C2_trial_create [] 1 1 "pm-1" none trialPlan okCharge 0 rfl (by decide)

/-- Claim C3 is refuted on its cap conjunct: with `plan.max_retries = 10`
and a subscription at `retry_count = 5`, the insufficient-funds handler
schedules the retry `1 * 2 ^ (6 - 1) = 32` days out, not the claimed
`min(32, 24) = 24` days: src applies no cap (its configured `max_delay`
is never read). -/
theorem C3_retry_cap_counterexample :
    (handleInsufficientFunds pastDueSub5 10 0).2.retryAt =
      some (addDays 32 0) ∧
    (handleInsufficientFunds pastDueSub5 10 0).2.retryAt ≠
      some (addDays (min 32 retryConfig.maxDelay) 0) := by
  exact ⟨rfl, by decide⟩

/-- Claim C3 as amended: on `InsufficientFunds` the billing engine
increments `retry_count`; if the incremented count reaches
`plan.max_retries` the subscription transitions to `cancelled` and no
retry is scheduled; otherwise a retry is scheduled at
`now + 1 day * 2 ^ (retry_count - 1)` with NO cap (the configured
`max_delay = 24` is unused). A call made while `retry_count <
plan.max_retries` (every call on a not-yet-cancelled subscription,
starting from 0, with `max_retries ≥ 1`) keeps
`retry_count ≤ plan.max_retries`. -/
theorem C3_insufficient_funds (sub : Subscription) (maxRetries : Nat)
    (now : Time) (hrc : sub.retryCount < maxRetries) :
    ((handleInsufficientFunds sub maxRetries now).1.retryCount =
      sub.retryCount + 1) ∧
    ((handleInsufficientFunds sub maxRetries now).1.retryCount ≤ maxRetries) ∧
    (maxRetries = sub.retryCount + 1 →
      (handleInsufficientFunds sub maxRetries now).1.status = "cancelled" ∧
      (handleInsufficientFunds sub maxRetries now).2.cancelled = true ∧
      (handleInsufficientFunds sub maxRetries now).2.retryAt = none) ∧
    (sub.retryCount + 1 < maxRetries →
      (handleInsufficientFunds sub maxRetries now).1.status = sub.status ∧
      (handleInsufficientFunds sub maxRetries now).2.cancelled = false ∧
      (handleInsufficientFunds sub maxRetries now).2.retryAt =
        some (addDays ((2 : Int) ^ sub.retryCount) now)) := by
  unfold handleInsufficientFunds cancelForNonPayment
  by_cases hm : maxRetries ≤ sub.retryCount + 1
  · have heq : maxRetries = sub.retryCount + 1 := le_antisymm hm hrc
    simp [hm, heq]
  · push_neg at hm
    have hle : ¬ maxRetries ≤ sub.retryCount + 1 := not_le.mpr hm
    refine ⟨by simp [hle], by simp [hle]; omega, ?_, ?_⟩
    · intro h; omega
    · intro _
      simp [hle, retryConfig, Nat.add_sub_cancel]

/-- Claim C3 witness: first failure under the default `max_retries = 3`
schedules the retry one day out and keeps the count below the bound. -/
theorem C3_insufficient_funds_witness :
    (handleInsufficientFunds activeSub 3 0).1.retryCount = 1 ∧
    (handleInsufficientFunds activeSub 3 0).1.retryCount ≤ 3 ∧
    (handleInsufficientFunds activeSub 3 0).2.retryAt =
      some (addDays ((2 : Int) ^ (0 : Nat)) 0) := by
  have h := C3_insufficient_funds activeSub 3 0 (by decide)
  exact ⟨h.1, h.2.1, (h.2.2.2 (by decide)).2.2⟩

/-- Claim C4 is refuted on its same-plan conjunct: user 7 holds an
active subscription on plan 1, yet creating a subscription on the
DIFFERENT plan 2 is rejected with the blocking error, because
`_get_active_subscription` is consulted with the user id alone. -/
theorem C4_cross_plan_counterexample :
    activeSub.planId = 1 ∧
    createSubscription [activeSub] 7 2 "pm-2" none noTrialPlan okCharge 0 =
      .error (.subscriptionErr blockedMsg) := by
  exact ⟨rfl, rfl⟩

/-- Claim C4 as amended: `create_subscription` fails with the
already-active error if and only if the user already has a subscription
in a non-terminal status (active, trial, past_due) on ANY plan; the
check is per user, not per (user, plan). -/
theorem C4_per_user_block (subs : List Subscription) (userId planId : Nat)
    (pm : String) (promo : Option String) (plan : Plan)
    (processPayment : ℚ → Except PayError Tx) (now : Time) :
    createSubscription subs userId planId pm promo plan processPayment now =
        .error (.subscriptionErr blockedMsg) ↔
      ∃ s ∈ subs, s.userId = userId ∧ s.status ∈ nonTerminalStatuses := by
  constructor
  · intro h
    unfold createSubscription at h
    split at h
    case _ s hg =>
      refine ⟨s, List.mem_of_find?_eq_some hg, ?_⟩
      have hp := List.find?_some hg
      simpa using hp
    case _ hg =>
      exfalso
      split_ifs at h with ht
      simp only [applyPromoCode, sub_zero] at h
      cases hp : processPayment plan.price with
      | error e =>
        rw [hp] at h
        simp at h
      | ok tx =>
        rw [hp] at h
        simp at h
  · rintro ⟨s, hs, hu, hst⟩
    have hsome : (getActiveSubscription subs userId).isSome = true := by
      unfold getActiveSubscription
      rw [List.find?_isSome]
      exact ⟨s, hs, by simp [hu, hst]⟩
    obtain ⟨t, ht⟩ := Option.isSome_iff_exists.mp hsome
    unfold createSubscription
    rw [ht]

/-- Claim C5 is refuted on its state conjunct: `upgrade_subscription`
never examines the subscription status, so upgrading a `cancelled`
subscription to a strictly more expensive plan succeeds (with a
charge) instead of failing. -/
theorem C5_cancelled_upgrade_counterexample :
    cancelledStateSub.status = "cancelled" ∧
    cancelledStateSub.status ∉ (["active", "trial"] : List String) ∧
    isOkE (upgradeSubscription cancelledStateSub noTrialPlan premiumPlan 2
      okCharge 0) = true := by
  refine ⟨rfl, by decide, ?_⟩
  have hv : ¬ premiumPlan.price ≤ noTrialPlan.price := by
    norm_num [premiumPlan, noTrialPlan]
  have hp : calculateProratedAmount cancelledStateSub noTrialPlan premiumPlan 0
      = 3000 := by
    have h1 : daysBetween cancelledStateSub.currentPeriodStart 0 = 0 := by
      decide
    have h2 : daysBetween cancelledStateSub.currentPeriodStart
        cancelledStateSub.currentPeriodEnd = 30 := by decide
    unfold calculateProratedAmount
    rw [h1, h2]
    norm_num [noTrialPlan, premiumPlan, max_def]
  unfold upgradeSubscription validateUpgrade
  rw [if_neg hv, hp]
  norm_num [okCharge, isOkE]

/-- Claim C5 as amended: `upgrade_subscription` performs no state check;
it fails with `InvalidUpgrade` (and consults no payment processor)
exactly when the new price is not strictly greater than the current
price, succeeds only when the new price is strictly greater, and in
particular after `upgrade(A -> B)` succeeds, `upgrade(B -> A)` is
rejected. -/
theorem C5_price_only_validation (sub : Subscription) (cp np : Plan)
    (newPlanId : Nat) (now : Time) :
    (np.price ≤ cp.price →
      ∀ pp, upgradeSubscription sub cp np newPlanId pp now =
        .error (.subscriptionErr "New plan must be more expensive for upgrade")) ∧
    (∀ pp r, upgradeSubscription sub cp np newPlanId pp now = .ok r →
      cp.price < np.price) ∧
    (∀ pp r pp2 planId2 now2,
      upgradeSubscription sub cp np newPlanId pp now = .ok r →
      upgradeSubscription r.1 np cp planId2 pp2 now2 =
        .error (.subscriptionErr "New plan must be more expensive for upgrade")) := by
  refine ⟨?_, ?_, ?_⟩
  · intro h pp
    unfold upgradeSubscription validateUpgrade
    simp [h]
  · intro pp r h
    by_cases hv : np.price ≤ cp.price
    · unfold upgradeSubscription validateUpgrade at h
      simp [hv] at h
    · exact not_le.mp hv
  · intro pp r pp2 planId2 now2 h
    have hlt : cp.price < np.price := by
      by_cases hv : np.price ≤ cp.price
      · unfold upgradeSubscription validateUpgrade at h
        simp [hv] at h
      · exact not_le.mp hv
    unfold upgradeSubscription validateUpgrade
    simp [le_of_lt hlt]

/-- Claim C5 witness: the downgrade premium-to-basic is rejected by the
price validation via `C5_price_only_validation`. -/
theorem C5_price_only_validation_witness :
    upgradeSubscription activeSub premiumPlan noTrialPlan 1 failCharge 0 =
      .error (.subscriptionErr "New plan must be more expensive for upgrade") :=
  (C5_price_only_validation activeSub premiumPlan noTrialPlan 1 0).1
    (by norm_num [noTrialPlan, premiumPlan]) failCharge

/-- Claim C6 is refuted on the clamp: with a period starting 10 days
after `now` (so the unclamped `days_used` is -10 and `days_remaining`
is 40 of a 30-day period), both plans priced 30, the code returns 50
while the claimed formula with `used` clamped to `[0, total]` gives
30. -/
theorem C6_clamp_counterexample :
    calculateProratedAmount lateStartSub thirtyPlan thirtyPlan 0 = 50 ∧
    claimProrateClamped lateStartSub thirtyPlan thirtyPlan 0 = 30 ∧
    calculateProratedAmount lateStartSub thirtyPlan thirtyPlan 0 ≠
      claimProrateClamped lateStartSub thirtyPlan thirtyPlan 0 := by
  have h1 : daysBetween lateStartSub.currentPeriodStart 0 = -10 := by decide
  have h2 : daysBetween lateStartSub.currentPeriodStart
      lateStartSub.currentPeriodEnd = 30 := by decide
  have hc : calculateProratedAmount lateStartSub thirtyPlan thirtyPlan 0 = 50 := by
    unfold calculateProratedAmount
    rw [h1, h2]
    norm_num [thirtyPlan, max_def]
  have hs : claimProrateClamped lateStartSub thirtyPlan thirtyPlan 0 = 30 := by
    unfold claimProrateClamped
    rw [h1, h2]
    norm_num [thirtyPlan, max_def, min_def]
  refine ⟨hc, hs, ?_⟩
  rw [hc, hs]
  norm_num

/-- Claim C6 as amended: the prorated upgrade amount equals
`max(0, (new.price/total)*remaining - (current.price/total)*used)` with
`used = days(now - start)` NOT clamped (`remaining = total - used`); the
result is never negative, and it is 0 when `used = total`
(`remaining = 0`), given a nonempty period and a nonnegative current
price. -/
theorem C6_prorate_unclamped (sub : Subscription) (cp np : Plan)
    (now : Time)
    (htot : daysBetween sub.currentPeriodStart sub.currentPeriodEnd ≠ 0)
    (hcp : 0 ≤ cp.price) :
    (calculateProratedAmount sub cp np now =
      max ((np.price /
              ((daysBetween sub.currentPeriodStart sub.currentPeriodEnd : Int) : ℚ)) *
             (((daysBetween sub.currentPeriodStart sub.currentPeriodEnd -
                daysBetween sub.currentPeriodStart now : Int)) : ℚ) -
           (cp.price /
              ((daysBetween sub.currentPeriodStart sub.currentPeriodEnd : Int) : ℚ)) *
             ((daysBetween sub.currentPeriodStart now : Int) : ℚ)) 0) ∧
    0 ≤ calculateProratedAmount sub cp np now ∧
    (daysBetween sub.currentPeriodStart now =
        daysBetween sub.currentPeriodStart sub.currentPeriodEnd →
      calculateProratedAmount sub cp np now = 0) := by
  have htotQ :
      ((daysBetween sub.currentPeriodStart sub.currentPeriodEnd : Int) : ℚ) ≠ 0 := by
    exact_mod_cast htot
  refine ⟨rfl, le_max_right _ _, ?_⟩
  intro hused
  unfold calculateProratedAmount
  rw [hused]
  simp only [sub_self, Int.cast_zero, mul_zero, zero_sub]
  rw [div_mul_cancel₀ _ htotQ]
  exact max_eq_right (neg_nonpos.mpr hcp)

/-- Claim C6 witness: a fully used 30-day period prorates to 0 via
`C6_prorate_unclamped`. -/
theorem C6_prorate_unclamped_witness :
    calculateProratedAmount activeSub thirtyPlan premiumPlan 2592000 = 0 :=
  (C6_prorate_unclamped activeSub thirtyPlan premiumPlan 2592000
    (by decide) (by norm_num [thirtyPlan])).2.2 (by decide)
